import Mathlib

/-!
Verification of the k8s-ui core subsystems: the cluster session manager
(internal/kube/manager.go) and the exec session bridge together with its
terminal size queue (internal/web/handlers_pods.go).

The Go code is shallowly embedded: client handles are opaque identifiers,
fallible external calls (kubeconfig loading, REST config and clientset
construction, file reads) are supplied as explicit environment records, and
mutex protected operations are modelled as atomic steps of a state machine
(the single RWMutex in Manager makes each whole method body atomic with
respect to every other method body).
-/

namespace K8sUI

/-! ## Cluster session manager (internal/kube/manager.go) -/

/-- The parts of the clientcmd api.Config that the manager reads: the key set
of the Contexts map and the CurrentContext field. -/
structure ApiConfig where
  contexts : List String
  currentContext : String
  deriving DecidableEq, Repr

/-- Client handles (kubernetes.Interface values) are opaque; we model them by
an identifier so that distinct handles can be told apart. -/
abbrev Clientset := Nat

/-- State of kube.Manager. The Go field namespace is called nspace here
because namespace is a Lean keyword. The clientConfig field of the Go struct
is only consulted through the environment records below and carries no state
of its own that the claims mention, so it is omitted. -/
structure Manager where
  clientset : Clientset
  nspace : String
  rawConfig : ApiConfig
  isLocal : Bool
  deriving DecidableEq, Repr

/-- Outcomes of the external calls that Manager.SwitchContext performs after
its mode and name checks: clientConfig.ClientConfig(),
kubernetes.NewForConfig(restConfig) and clientConfig.Namespace(). -/
structure SwitchEnv where
  restConfigErr : Bool
  clientsetErr : Bool
  newClient : Clientset
  nsErr : Bool
  nsVal : String
  deriving DecidableEq, Repr

/-- The error cases of Manager.SwitchContext, named after the fmt.Errorf
messages in the source. -/
inductive SwitchError where
  | notLocal
  | contextNotFound
  | restConfigFailed
  | clientsetFailed
  deriving DecidableEq, Repr

/-- Manager.Client (manager.go lines 107-111): read the clientset under the
read lock. -/
def Manager.client (m : Manager) : Clientset := m.clientset

/-- Manager.Namespace (manager.go lines 113-117): read the namespace under
the read lock. -/
def Manager.namespaceVal (m : Manager) : String := m.nspace

/-- Manager.SetNamespace (manager.go lines 119-123): overwrite the namespace
under the write lock, with no check on the argument. -/
def Manager.setNamespace (m : Manager) (ns : String) : Manager :=
  { m with nspace := ns }

/-- Manager.SwitchContext (manager.go lines 146-190), as one atomic step
(the whole body runs under the write lock). Returns the state of the manager
after the call together with the error result. Note that the source assigns
m.rawConfig.CurrentContext = name before it attempts to build the new client,
so the two client-build failure paths return with that field already
updated. -/
def Manager.switchContext (m : Manager) (env : SwitchEnv) (name : String) :
    Manager × Option SwitchError :=
  if !m.isLocal then
    (m, some SwitchError.notLocal)
  else if !(m.rawConfig.contexts.contains name) then
    (m, some SwitchError.contextNotFound)
  else
    let m1 : Manager := { m with rawConfig := { m.rawConfig with currentContext := name } }
    if env.restConfigErr then
      (m1, some SwitchError.restConfigFailed)
    else if env.clientsetErr then
      (m1, some SwitchError.clientsetFailed)
    else
      let ns := if !env.nsErr && env.nsVal != "" then env.nsVal else "default"
      ({ m1 with clientset := env.newClient, nspace := ns }, none)

/-- Outcomes of the external calls that NewManager performs: in-cluster
config discovery, the service account namespace file read, home directory and
KUBECONFIG lookup, raw kubeconfig loading, clientConfig.Namespace(), REST
config and clientset construction. -/
structure InitEnv where
  inClusterOk : Bool
  saFile : Option String
  inClusterClientErr : Bool
  inClusterClient : Clientset
  homeDir : String
  kubeconfigEnv : String
  rawConfigErr : Bool
  rawConfig : ApiConfig
  cfgNsErr : Bool
  cfgNsVal : String
  restConfigErr : Bool
  clientsetErr : Bool
  localClient : Clientset
  deriving DecidableEq, Repr

/-- NewManager (manager.go lines 30-105). In in-cluster mode the rawConfig
field of the Go struct is left zero valued, modelled as the empty config. -/
def newManager (env : InitEnv) (initialNamespace : String) : Except String Manager :=
  if env.inClusterOk then
    let ns :=
      if initialNamespace == "" then
        match env.saFile with
        | some data => data
        | none => "default"
      else initialNamespace
    if env.inClusterClientErr then
      Except.error "failed to create in-cluster clientset"
    else
      Except.ok { clientset := env.inClusterClient, nspace := ns,
                  rawConfig := { contexts := [], currentContext := "" }, isLocal := false }
  else
    let kubeconfig :=
      if env.homeDir != "" then env.homeDir ++ "/.kube/config" else env.kubeconfigEnv
    if kubeconfig == "" then
      Except.error "could not find in-cluster config and no kubeconfig found"
    else if env.rawConfigErr then
      Except.error "failed to load raw kubeconfig"
    else
      let ns :=
        if initialNamespace == "" then
          if !env.cfgNsErr && env.cfgNsVal != "" then env.cfgNsVal else "default"
        else initialNamespace
      if env.restConfigErr then
        Except.error "failed to create rest config"
      else if env.clientsetErr then
        Except.error "failed to create clientset"
      else
        Except.ok { clientset := env.localClient, nspace := ns,
                    rawConfig := env.rawConfig, isLocal := true }

/-! ### Interleaving model for manager operations

Every public method body of Manager runs under the one RWMutex, so a
concurrent execution is an arbitrary interleaving of atomic method calls.
An execution is a list of actions; running it from a state yields the final
state and the sequence of observations the callers receive. -/

/-- One atomic manager operation, as issued by some concurrent caller. -/
inductive Action where
  | readClient
  | readNamespace
  | switchCtx (name : String) (env : SwitchEnv)
  deriving Repr

/-- What the caller of one action observes. -/
inductive Obs where
  | client (c : Clientset)
  | ns (s : String)
  | switched (ok : Bool)
  deriving DecidableEq, Repr

def Action.isSwitch : Action → Bool
  | .switchCtx _ _ => true
  | _ => false

/-- Effect of one atomic manager operation. -/
def step (m : Manager) : Action → Manager × Obs
  | .readClient => (m, Obs.client m.client)
  | .readNamespace => (m, Obs.ns m.namespaceVal)
  | .switchCtx name env =>
      ((m.switchContext env name).1, Obs.switched (m.switchContext env name).2.isNone)

/-- Run an interleaved execution, collecting the observations in order. -/
def run (m : Manager) : List Action → Manager × List Obs
  | [] => (m, [])
  | a :: rest =>
      ((run (step m a).1 rest).1, (step m a).2 :: (run (step m a).1 rest).2)

/-- A local mode manager whose kubeconfig knows contexts a and b, currently
bound to context a with client handle 1 and namespace ns1. -/
def sampleLocalManager : Manager :=
  { clientset := 1, nspace := "ns1",
    rawConfig := { contexts := ["a", "b"], currentContext := "a" }, isLocal := true }

/-- Environment in which building the client for the new context succeeds,
yielding client handle 2, and the context namespace resolves to nsB. -/
def sampleSwitchEnvOk : SwitchEnv :=
  { restConfigErr := false, clientsetErr := false, newClient := 2,
    nsErr := false, nsVal := "nsB" }

/-- Environment in which clientConfig.ClientConfig() for the new context
fails. -/
def sampleSwitchEnvRestErr : SwitchEnv :=
  { restConfigErr := true, clientsetErr := false, newClient := 2,
    nsErr := false, nsVal := "nsB" }

/-- In-cluster init environment: in-cluster config found, service account
namespace file unreadable, clientset construction succeeds with handle 1. -/
def sampleInClusterEnv : InitEnv :=
  { inClusterOk := true, saFile := none, inClusterClientErr := false,
    inClusterClient := 1, homeDir := "", kubeconfigEnv := "",
    rawConfigErr := false, rawConfig := { contexts := [], currentContext := "" },
    cfgNsErr := false, cfgNsVal := "", restConfigErr := false,
    clientsetErr := false, localClient := 0 }

/-! ## Exec session bridge (internal/web/handlers_pods.go) -/

/-- remotecommand.TerminalSize: Width is msg.Cols, Height is msg.Rows. The
Go fields are uint16; no arithmetic is performed on them, so Nat suffices. -/
structure TerminalSize where
  width : Nat
  height : Nat
  deriving DecidableEq, Repr

/-- State of the buffered channel sizeChan (capacity 1): the one buffer slot
and whether the channel has been closed. -/
structure SizeChan where
  slot : Option TerminalSize
  closed : Bool
  deriving DecidableEq, Repr

/-- The non-blocking send of the inbound pump resize case (handlers_pods.go
lines 495-499): the select with a default clause places the value in the
buffer only when the buffer is empty, otherwise the frame is dropped. -/
def SizeChan.offer (c : SizeChan) (sz : TerminalSize) : SizeChan :=
  match c.slot with
  | none => { c with slot := some sz }
  | some _ => c

/-- The three possible behaviours of a receive on sizeChan. -/
inductive NextRes where
  | value (sz : TerminalSize) (c : SizeChan)
  | nilSentinel
  | blocked
  deriving DecidableEq, Repr

/-- terminalSizeQueue.Next (handlers_pods.go lines 551-557): a blocking
receive. A pending value is returned and the slot emptied; on a closed empty
channel the receive yields ok = false and Next returns nil; on an open empty
channel the receive blocks. -/
def SizeChan.next (c : SizeChan) : NextRes :=
  match c.slot with
  | some sz => NextRes.value sz { c with slot := none }
  | none => if c.closed then NextRes.nilSentinel else NextRes.blocked

/-- An inbound client frame after conn.ReadMessage, as seen by the decoding
step: either json.Unmarshal fails, or it yields a TerminalMessage with the
given Type, Data, Rows and Cols fields. -/
inductive Frame where
  | malformed
  | msg (type_ : String) (data : String) (rows cols : Nat)
  deriving DecidableEq, Repr

/-- The state the inbound pump can affect: the bytes written to the stdin
pipe (in order) and the pending resize slot. -/
structure PumpState where
  stdinWrites : List String
  sizeChan : SizeChan
  deriving DecidableEq, Repr

/-- Frame dispatch of the inbound pump (handlers_pods.go lines 487-500):
Unmarshal errors continue the loop; input frames append their Data to stdin;
resize frames offer Width = Cols, Height = Rows to the slot; every other
Type falls through the switch with no effect. -/
def handleFrame (st : PumpState) : Frame → PumpState
  | .malformed => st
  | .msg t data rows cols =>
      if t == "input" then
        { st with stdinWrites := st.stdinWrites ++ [data] }
      else if t == "resize" then
        { st with sizeChan := st.sizeChan.offer { width := cols, height := rows } }
      else st

/-- A frame the inbound pump ignores: a json.Unmarshal failure, or a Type
that is neither input nor resize. -/
def Frame.isIgnored : Frame → Bool
  | .malformed => true
  | .msg t _ _ _ => t != "input" && t != "resize"

/-- What one conn.ReadMessage call returns: a message, or an error (the
client channel closed or failed). -/
inductive InEv where
  | recv (f : Frame)
  | readErr
  deriving DecidableEq, Repr

def InEv.isErr : InEv → Bool
  | .readErr => true
  | _ => false

/-- Result of the inbound pump goroutine once it has returned. The deferred
stdinWriter.Close() runs on every return path, recorded by
stdinWriterClosed. framesRead counts the conn.ReadMessage calls that
returned a message. -/
structure PumpResult where
  finalState : PumpState
  stdinWriterClosed : Bool
  framesRead : Nat
  deriving DecidableEq, Repr

/-- Either the pump has returned, or it is still looping after consuming the
whole schedule. -/
inductive PumpOutcome where
  | exited (r : PumpResult)
  | running (st : PumpState) (reads : Nat)
  deriving DecidableEq, Repr

/-- The inbound pump loop (handlers_pods.go lines 474-503). Each iteration
is driven by one schedule entry (doneFired, ev): doneFired is whether the
done channel is closed when the select at the top of the iteration runs (a
ready channel case is preferred over the default clause), and ev is what
conn.ReadMessage would return if called. On the done branch and on a read
error the goroutine returns, running the deferred stdinWriter.Close(). -/
def inboundLoop (st : PumpState) (reads : Nat) : List (Bool × InEv) → PumpOutcome
  | [] => PumpOutcome.running st reads
  | (doneFired, ev) :: rest =>
      if doneFired then
        PumpOutcome.exited { finalState := st, stdinWriterClosed := true, framesRead := reads }
      else
        match ev with
        | .readErr =>
            PumpOutcome.exited { finalState := st, stdinWriterClosed := true, framesRead := reads }
        | .recv f => inboundLoop (handleFrame st f) (reads + 1) rest

/-- Index of the first schedule entry at which the pump must exit: the done
flag is observed fired, or the read fails. -/
def firstStop : List (Bool × InEv) → Option Nat
  | [] => none
  | (d, e) :: rest => if d || e.isErr then some 0 else (firstStop rest).map (· + 1)

/-- An output frame written to the client by the outbound pump. Payloads are
byte lists (Go strings are byte sequences). -/
structure OutFrame where
  type_ : String
  data : List Nat
  deriving DecidableEq, Repr

/-- The outbound pump (handlers_pods.go lines 507-522). The argument is the
sequence of successful stdoutReader.Read results, in order (the loop stops
reading at the first error, so the list is exactly the chunks read); each
chunk with n > 0 is wrapped as an output frame, empty reads are skipped. -/
def outboundPump : List (List Nat) → List OutFrame
  | [] => []
  | c :: rest =>
      if 0 < c.length then
        { type_ := "output", data := c } :: outboundPump rest
      else outboundPump rest

/-! ### Whole-bridge event model

Everything handlePodExecWS ever does to the shared per-session state after
the pipes and sizeChan are created (handlers_pods.go lines 460-543). Used to
show which objects the termination sequence closes and which it does not. -/

/-- Shared state of one exec session: the done channel, the closed flags of
the pipe ends, and the size channel. -/
structure BridgeState where
  done : Bool
  stdinReaderClosed : Bool
  stdinWriterClosed : Bool
  stdoutWriterClosed : Bool
  sizeChan : SizeChan
  deriving DecidableEq, Repr

/-- State right after setup: nothing closed, sizeChan holds the initial
120x30 size sent at line 467. -/
def bridgeInit : BridgeState :=
  { done := false, stdinReaderClosed := false, stdinWriterClosed := false,
    stdoutWriterClosed := false,
    sizeChan := { slot := some { width := 120, height := 30 }, closed := false } }

/-- The operations on the shared session state: a resize offer by the
inbound pump, a Next call by the transport sizing loop consuming a pending
value, the termination sequence at lines 533-535 (close(done),
stdinReader.Close(), stdoutWriter.Close()), and the inbound pump running its
deferred stdinWriter.Close() as it exits. -/
inductive BridgeEv where
  | offerResize (sz : TerminalSize)
  | consumeSize
  | terminate
  | inboundExit
  deriving Repr

def bridgeStep (st : BridgeState) : BridgeEv → BridgeState
  | .offerResize sz => { st with sizeChan := st.sizeChan.offer sz }
  | .consumeSize =>
      match st.sizeChan.next with
      | .value _ c => { st with sizeChan := c }
      | _ => st
  | .terminate =>
      { st with done := true, stdinReaderClosed := true, stdoutWriterClosed := true }
  | .inboundExit => { st with stdinWriterClosed := true }

def bridgeRun (st : BridgeState) : List BridgeEv → BridgeState
  | [] => st
  | e :: es => bridgeRun (bridgeStep st e) es

/-! ### Pre-upgrade checks of handlePodExecWS -/

/-- Go strings.Split with a one-character separator, over the character
sequence of the string (paths here are ASCII, so Go byte indexing and
character indexing agree): splits around every occurrence of the separator,
keeping empty fields, and yields one empty field for the empty input. -/
def stringsSplit (sep : Char) : List Char → List (List Char)
  | [] => [[]]
  | c :: rest =>
      match stringsSplit sep rest with
      | [] => if c = sep then [[], []] else [[c]]
      | h :: t => if c = sep then [] :: h :: t else (c :: h) :: t

/-- Outcome of the phase of handlePodExecWS that runs before
upgrader.Upgrade (handlers_pods.go lines 410-429). -/
inductive ExecPre where
  | rejectInvalidPath
  | rejectContainerRequired
  | proceed (name : List Char) (container : String)
  deriving DecidableEq, Repr

/-- The pre-upgrade checks (lines 411-422): split the URL path on /, reject
when fewer than 3 parts, take the pod name from parts[2] with no emptiness
check, and reject only an empty container query parameter. The namespace is
not consulted before the upgrade at all. -/
def execPrecheck (path : String) (container : String) : ExecPre :=
  let parts := stringsSplit '/' path.data
  if parts.length < 3 then ExecPre.rejectInvalidPath
  else if container == "" then ExecPre.rejectContainerRequired
  else ExecPre.proceed (parts.getD 2 []) container

/-- The route targets of the /pods/ subtree dispatcher. -/
inductive PodsRoute where
  | redirectList
  | logsDownload
  | logs
  | execPage
  | execWS
  | restart
  | del
  | yaml
  | detail
  deriving DecidableEq, Repr

/-- Go suffix slice sub[len(sub)-n:] over characters. -/
def goSuffix (sub : List Char) (n : Nat) : List Char :=
  sub.drop (sub.length - n)

/-- The /pods/ dispatcher (routes.go lines 20-57): suffix matching on the
part of the path after the /pods/ prefix, in source order. Paths are ASCII
here, so Go byte slicing agrees with character slicing. -/
def podsRoute (path : String) : PodsRoute :=
  let sub := path.data.drop 6
  if sub = [] then PodsRoute.redirectList
  else if 5 < sub.length ∧ goSuffix sub 5 = "/logs".data then PodsRoute.logs
  else if 14 < sub.length ∧ goSuffix sub 14 = "/logs/download".data then PodsRoute.logsDownload
  else if 5 < sub.length ∧ goSuffix sub 5 = "/exec".data then PodsRoute.execPage
  else if 8 < sub.length ∧ goSuffix sub 8 = "/exec/ws".data then PodsRoute.execWS
  else if 8 < sub.length ∧ goSuffix sub 8 = "/restart".data then PodsRoute.restart
  else if 7 < sub.length ∧ goSuffix sub 7 = "/delete".data then PodsRoute.del
  else if 5 < sub.length ∧ goSuffix sub 5 = "/yaml".data then PodsRoute.yaml
  else PodsRoute.detail

/-- Sample pump state for concrete instantiations: nothing written to stdin,
empty open size channel. -/
def samplePumpState : PumpState :=
  { stdinWrites := [], sizeChan := { slot := none, closed := false } }

/-! ## Theorems -/

/-- Helper: manager operations other than SwitchContext leave the manager
state unchanged, so a run of switch-free actions keeps the state fixed and
appending a readNamespace action at the end observes the namespace of the
starting state. -/
theorem run_no_switch_append_ns (m : Manager) (mid : List Action)
    (h : ∀ a ∈ mid, a.isSwitch = false) :
    (run m (mid ++ [Action.readNamespace])).2 = (run m mid).2 ++ [Obs.ns m.nspace] := by
  induction mid with
  | nil => rfl
  | cons a rest ih =>
    have ha : a.isSwitch = false := h a (List.mem_cons_self a rest)
    have hrest : ∀ b ∈ rest, b.isSwitch = false := fun b hb => h b (List.mem_cons_of_mem a hb)
    cases a with
    | readClient =>
      simp only [List.cons_append, run, step]
      exact congrArg (List.cons (Obs.client m.client)) (ih hrest)
    | readNamespace =>
      simp only [List.cons_append, run, step]
      exact congrArg (List.cons (Obs.ns m.namespaceVal)) (ih hrest)
    | switchCtx name env => simp [Action.isSwitch] at ha

/-- Helper: the sizeChan closed flag is false in every reachable bridge
state, since no bridge operation ever closes the channel. -/
theorem bridge_sizechan_stays_open (evs : List BridgeEv) (st : BridgeState)
    (h : st.sizeChan.closed = false) :
    (bridgeRun st evs).sizeChan.closed = false := by
  induction evs generalizing st with
  | nil => exact h
  | cons e rest ih =>
    refine ih (bridgeStep st e) ?_
    cases e with
    | offerResize sz =>
      cases hs : st.sizeChan.slot <;>
        simp [bridgeStep, SizeChan.offer, hs, h]
    | consumeSize =>
      cases hs : st.sizeChan.slot with
      | none => simp [bridgeStep, SizeChan.next, hs, h]
      | some sz => simp [bridgeStep, SizeChan.next, hs, h]
    | terminate => simpa [bridgeStep] using h
    | inboundExit => simpa [bridgeStep] using h

/-- C1: a SwitchContext call with an unknown context name, or on a manager
that is not in local mode, returns an error, and the values observed by
Client() and Namespace() are identical before and after the call. -/
theorem c1_switch_unknown_or_nonlocal_fails_unchanged
    (m : Manager) (env : SwitchEnv) (name : String)
    (h : m.rawConfig.contexts.contains name = false ∨ m.isLocal = false) :
    (m.switchContext env name).2.isSome = true ∧
    (m.switchContext env name).1.client = m.client ∧
    (m.switchContext env name).1.namespaceVal = m.namespaceVal := by
  unfold Manager.switchContext Manager.client Manager.namespaceVal
  rcases h with h | h
  · simp only [List.contains, List.elem_eq_mem, decide_eq_false_iff_not] at h
    by_cases hl : m.isLocal
    · simp [hl, h]
    · simp [hl]
  · simp [h]

/-- Witness for C1: switching to the unknown context zzz on the sample local
manager fails and leaves the observable state unchanged. -/
theorem c1_witness :
    (sampleLocalManager.switchContext sampleSwitchEnvOk "zzz").2.isSome = true ∧
    (sampleLocalManager.switchContext sampleSwitchEnvOk "zzz").1.client =
      sampleLocalManager.client ∧
    (sampleLocalManager.switchContext sampleSwitchEnvOk "zzz").1.namespaceVal =
      sampleLocalManager.namespaceVal :=
  c1_switch_unknown_or_nonlocal_fails_unchanged sampleLocalManager sampleSwitchEnvOk "zzz"
    (Or.inl (by decide))

/-- C2 counterexample: on the sample local manager (current context a), a
SwitchContext to the known context b whose client build fails returns an
error, yet the raw config current-context name has been changed from a to b,
so not every failing call leaves the whole internal state unchanged. -/
theorem c2_counterexample_build_failure_mutates_current_context :
    (sampleLocalManager.switchContext sampleSwitchEnvRestErr "b").2 =
      some SwitchError.restConfigFailed ∧
    sampleLocalManager.rawConfig.currentContext = "a" ∧
    (sampleLocalManager.switchContext sampleSwitchEnvRestErr "b").1.rawConfig.currentContext =
      "b" :=
  ⟨rfl, rfl, rfl⟩

/-- C2 amended: every failing SwitchContext call leaves the clientset, the
namespace, the mode flag and the context set unchanged; the raw config
current-context name is unchanged for failures at the mode or name check
(those failures leave the whole manager state unchanged), but a failure
while building the new client after the name check — the only failures
possible in local mode with a known name — leaves the current-context name
updated to the requested name. -/
theorem c2_amended_failure_state
    (m : Manager) (env : SwitchEnv) (name : String)
    (h : (m.switchContext env name).2.isSome = true) :
    (m.switchContext env name).1.clientset = m.clientset ∧
    (m.switchContext env name).1.nspace = m.nspace ∧
    (m.switchContext env name).1.isLocal = m.isLocal ∧
    (m.switchContext env name).1.rawConfig.contexts = m.rawConfig.contexts ∧
    (m.isLocal = false ∨ m.rawConfig.contexts.contains name = false →
      (m.switchContext env name).1 = m) ∧
    (m.isLocal = true → m.rawConfig.contexts.contains name = true →
      (env.restConfigErr = true ∨ env.clientsetErr = true) ∧
      (m.switchContext env name).1.rawConfig.currentContext = name) := by
  unfold Manager.switchContext at h ⊢
  by_cases h1 : m.isLocal <;> by_cases h2 : m.rawConfig.contexts.contains name <;>
    by_cases h3 : env.restConfigErr <;> by_cases h4 : env.clientsetErr <;>
    simp_all

/-- Witness for C2 amended: both cases of the split at concrete failing
calls — the build failure of the C2 counterexample sets the current-context
name to the requested b, and a name-check failure leaves the sample manager
completely unchanged. -/
theorem c2_amended_witness :
    (sampleLocalManager.switchContext sampleSwitchEnvRestErr "b").1.nspace =
      sampleLocalManager.nspace ∧
    (sampleLocalManager.switchContext sampleSwitchEnvRestErr "b").1.rawConfig.currentContext =
      "b" ∧
    (sampleLocalManager.switchContext sampleSwitchEnvOk "zzz").1 = sampleLocalManager :=
  ⟨(c2_amended_failure_state sampleLocalManager sampleSwitchEnvRestErr "b" (by decide)).2.1,
    ((c2_amended_failure_state sampleLocalManager sampleSwitchEnvRestErr "b"
        (by decide)).2.2.2.2.2 rfl (by decide)).2,
    (c2_amended_failure_state sampleLocalManager sampleSwitchEnvOk "zzz"
        (by decide)).2.2.2.2.1 (Or.inr (by decide))⟩

/-- C3 counterexample: Client() and Namespace() take the read lock
separately, so a successful switch from context a (client 1, namespace ns1)
to context b (client 2, namespace nsB) can interleave between the two reads
of one reader; the reader then observes the pair (1, nsB), which is the
client of one context paired with the namespace of a different context,
matching neither (1, ns1) nor (2, nsB). -/
theorem c3_counterexample_torn_pair_across_switch :
    (run sampleLocalManager
        [Action.readClient, Action.switchCtx "b" sampleSwitchEnvOk, Action.readNamespace]).2 =
      [Obs.client 1, Obs.switched true, Obs.ns "nsB"] ∧
    sampleLocalManager.clientset = 1 ∧ sampleLocalManager.nspace = "ns1" ∧
    (sampleLocalManager.switchContext sampleSwitchEnvOk "b").1.clientset = 2 ∧
    (sampleLocalManager.switchContext sampleSwitchEnvOk "b").1.nspace = "nsB" ∧
    ((1 : Clientset), "nsB") ≠ ((1 : Clientset), "ns1") ∧
    ((1 : Clientset), "nsB") ≠ ((2 : Clientset), "nsB") := by
  refine ⟨rfl, rfl, rfl, rfl, rfl, ?_, ?_⟩ <;> decide

/-- C3 amended: each read is a single atomic snapshot (switches are atomic
under the write lock), so a reader that calls Client() and then Namespace()
observes a consistent pair of one single state provided no SwitchContext
call interleaves between its two reads; with an interleaved switch the pair
can be torn, as the counterexample shows. -/
theorem c3_amended_reads_consistent_without_switch (m : Manager) (mid : List Action)
    (h : ∀ a ∈ mid, a.isSwitch = false) :
    (run m (Action.readClient :: (mid ++ [Action.readNamespace]))).2 =
      Obs.client m.clientset :: ((run m mid).2 ++ [Obs.ns m.nspace]) := by
  simp only [run, step, Manager.client]
  rw [run_no_switch_append_ns m mid h]

/-- Witness for C3 amended: a reader whose two reads are separated only by
another read observes the pair of the starting state. -/
theorem c3_amended_witness :
    (run sampleLocalManager
        (Action.readClient :: ([Action.readClient] ++ [Action.readNamespace]))).2 =
      Obs.client sampleLocalManager.clientset ::
        ((run sampleLocalManager [Action.readClient]).2 ++ [Obs.ns sampleLocalManager.nspace]) :=
  c3_amended_reads_consistent_without_switch sampleLocalManager [Action.readClient] (by decide)

/-- C9 counterexample: the manager returned by a successful NewManager (in
cluster, no initial namespace, unreadable service account file) holds the
namespace default, yet the subsequent operation SetNamespace with the empty
string sets the namespace to the empty string, so the namespace does not
remain non-empty under every subsequent operation. -/
theorem c9_counterexample_setNamespace_empty :
    newManager sampleInClusterEnv "" =
      Except.ok { clientset := 1, nspace := "default",
                  rawConfig := { contexts := [], currentContext := "" }, isLocal := false } ∧
    (({ clientset := 1, nspace := "default",
        rawConfig := { contexts := [], currentContext := "" },
        isLocal := false } : Manager).setNamespace "").nspace = "" :=
  ⟨rfl, rfl⟩

/-- C9 amended: after a successful NewManager the namespace is non-empty
provided that, in in-cluster mode with no preferred namespace, the service
account file is not read as the empty string; and the namespace stays
non-empty under every SwitchContext call and under every SetNamespace call
whose argument is non-empty (SetNamespace with the empty string empties
it). -/
theorem c9_amended_namespace_nonempty :
    (∀ (env : InitEnv) (initNs : String) (m : Manager),
        (env.inClusterOk = true → initNs ≠ "" ∨ env.saFile ≠ some "") →
        newManager env initNs = Except.ok m → m.nspace ≠ "") ∧
    (∀ (m : Manager) (env : SwitchEnv) (name : String),
        m.nspace ≠ "" → ((m.switchContext env name).1).nspace ≠ "") ∧
    (∀ (m : Manager) (ns : String), ns ≠ "" → (m.setNamespace ns).nspace ≠ "") := by
  refine ⟨?_, ?_, ?_⟩
  · intro env initNs m hsa hm
    unfold newManager at hm
    by_cases hic : env.inClusterOk
    · rw [if_pos hic] at hm
      by_cases hcl : env.inClusterClientErr
      · simp [hcl] at hm
      · rw [if_neg hcl] at hm
        injection hm with hm
        subst hm
        by_cases hini : initNs = ""
        · rcases hsa hic with hne | hsf
          · exact absurd hini hne
          · cases hs : env.saFile with
            | none => simp [hini, hs]
            | some data =>
              have hd : data ≠ "" := by
                intro hd
                exact hsf (by rw [hs, hd])
              simp [hini, hs, hd]
        · simp [hini]
    · rw [if_neg hic] at hm
      simp only [] at hm
      split_ifs at hm with h1 h2 h3 h4 h5 h6 <;>
        first
          | exact Except.noConfusion hm
          | (injection hm with hm; subst hm; simp_all)
  · intro m env name h
    unfold Manager.switchContext
    by_cases h1 : m.isLocal <;> by_cases h2 : m.rawConfig.contexts.contains name <;>
      by_cases h3 : env.restConfigErr <;> by_cases h4 : env.clientsetErr <;>
      by_cases h5 : !env.nsErr && env.nsVal != "" <;>
      simp_all
  · intro m ns h
    simpa [Manager.setNamespace] using h

/-- Witness for C9 amended: the in-cluster sample init yields the namespace
default, which is non-empty, and stays non-empty under a SetNamespace with
the non-empty argument kube-system. -/
theorem c9_amended_witness :
    ({ clientset := 1, nspace := "default",
       rawConfig := { contexts := [], currentContext := "" },
       isLocal := false } : Manager).nspace ≠ "" ∧
    (({ clientset := 1, nspace := "default",
        rawConfig := { contexts := [], currentContext := "" },
        isLocal := false } : Manager).setNamespace "kube-system").nspace ≠ "" :=
  ⟨c9_amended_namespace_nonempty.1 sampleInClusterEnv ""
      { clientset := 1, nspace := "default",
        rawConfig := { contexts := [], currentContext := "" }, isLocal := false }
      (fun _ => Or.inr (by decide)) rfl,
    c9_amended_namespace_nonempty.2.2
      { clientset := 1, nspace := "default",
        rawConfig := { contexts := [], currentContext := "" }, isLocal := false }
      "kube-system" (by decide)⟩

/-- C4: with the pending-resize slot free (the previous size consumed),
offering R1 succeeds and the slot then holds exactly R1; offering R2 while
R1 is still pending is a non-blocking no-op, so R2 is dropped; the transport
then consumes exactly R1, emptying the slot; and an R3 offered after R1 was
consumed is delivered. -/
theorem c4_resize_slot_overflow (c0 : SizeChan) (r1 r2 r3 : TerminalSize)
    (h : c0.slot = none) :
    ((c0.offer r1).offer r2).slot = some r1 ∧
    ((c0.offer r1).offer r2).next = NextRes.value r1 c0 ∧
    (c0.offer r3).next = NextRes.value r3 c0 := by
  obtain ⟨slot, closed⟩ := c0
  simp only at h
  subst h
  simp [SizeChan.offer, SizeChan.next]

/-- Witness for C4 at a free slot of an open channel and concrete sizes. -/
theorem c4_witness :
    ((({ slot := none, closed := false } : SizeChan).offer ⟨80, 24⟩).offer ⟨100, 40⟩).slot =
      some ⟨80, 24⟩ ∧
    ((({ slot := none, closed := false } : SizeChan).offer ⟨80, 24⟩).offer ⟨100, 40⟩).next =
      NextRes.value ⟨80, 24⟩ { slot := none, closed := false } ∧
    (({ slot := none, closed := false } : SizeChan).offer ⟨90, 25⟩).next =
      NextRes.value ⟨90, 25⟩ { slot := none, closed := false } :=
  c4_resize_slot_overflow { slot := none, closed := false } ⟨80, 24⟩ ⟨100, 40⟩ ⟨90, 25⟩ rfl

/-- C5: for every sequence of chunks read from the combined remote output
stream, the outbound pump emits exactly the non-empty chunks, in order, as
output frames, and the concatenation of the frame payloads equals the
concatenation of the bytes read, independently of the chunking. -/
theorem c5_outbound_pump_order_and_bytes (chunks : List (List Nat)) :
    outboundPump chunks =
      (chunks.filter fun c => decide (0 < c.length)).map
        (fun c => { type_ := "output", data := c }) ∧
    (List.map OutFrame.data (outboundPump chunks)).flatten = chunks.flatten := by
  constructor
  · induction chunks with
    | nil => rfl
    | cons c rest ih =>
      by_cases hc : 0 < c.length <;> simp [outboundPump, List.filter_cons, hc, ih]
  · induction chunks with
    | nil => rfl
    | cons c rest ih =>
      by_cases hc : 0 < c.length
      · simp [outboundPump, hc, ih]
      · have hce : c = [] := List.length_eq_zero.mp (Nat.eq_zero_of_not_pos hc)
        simp [outboundPump, hc, ih, hce]

/-- C6 counterexample: the request path /pods///exec/ws is dispatched by the
pods router to the exec socket handler (its suffix check passes), its pod
name segment parts[2] is the empty string, and with a non-empty container
query the pre-upgrade phase does not reject the empty pod name: it proceeds
to the socket upgrade. So a request with an empty pod name is not rejected
before the upgrade. -/
theorem c6_counterexample_empty_pod_name_not_rejected :
    podsRoute "/pods///exec/ws" = PodsRoute.execWS ∧
    execPrecheck "/pods///exec/ws" "app" = ExecPre.proceed [] "app" := by
  exact ⟨by decide, by decide⟩

/-- C6 amended: before the socket upgrade the handler rejects exactly two
conditions: a path with fewer than three slash-separated parts, and an empty
container name (the latter with a client-visible error before any remote
connection is attempted, with no session created). The pod name and the
namespace are not checked for emptiness: whenever the path has at least
three parts and the container is non-empty the handler proceeds to the
upgrade, even with an empty pod name segment and regardless of the
namespace. -/
theorem c6_amended_only_container_checked (path container : String) :
    (container = "" → 3 ≤ (stringsSplit '/' path.data).length →
      execPrecheck path container = ExecPre.rejectContainerRequired) ∧
    ((stringsSplit '/' path.data).length < 3 →
      execPrecheck path container = ExecPre.rejectInvalidPath) ∧
    (3 ≤ (stringsSplit '/' path.data).length → container ≠ "" →
      execPrecheck path container =
        ExecPre.proceed ((stringsSplit '/' path.data).getD 2 []) container) := by
  unfold execPrecheck
  refine ⟨?_, ?_, ?_⟩
  · intro hc hlen
    simp [hc, Nat.not_lt.mpr hlen]
  · intro hlen
    simp [hlen]
  · intro hlen hc
    simp [hc, Nat.not_lt.mpr hlen]

/-- Witness for C6 amended: the three pre-upgrade outcomes at concrete
requests. -/
theorem c6_amended_witness :
    execPrecheck "/pods/web-1/exec/ws" "" = ExecPre.rejectContainerRequired ∧
    execPrecheck "/x" "app" = ExecPre.rejectInvalidPath ∧
    execPrecheck "/pods/web-1/exec/ws" "app" = ExecPre.proceed "web-1".data "app" :=
  ⟨(c6_amended_only_container_checked "/pods/web-1/exec/ws" "").1 rfl (by decide),
    (c6_amended_only_container_checked "/x" "app").2.1 (by decide),
    (c6_amended_only_container_checked "/pods/web-1/exec/ws" "app").2.2 (by decide)
      (by decide)⟩

/-- C7: the inbound pump returns at the first iteration at which the done
signal is observed fired or the client read fails, having read exactly the
frames before that point (so once the termination signal has fired it reads
no further frames), and every exit path runs the deferred close of the stdin
pipe writer. -/
theorem c7_inbound_pump_exit :
    (∀ (st : PumpState) (reads : Nat) (sched : List (Bool × InEv)) (r : PumpResult),
        inboundLoop st reads sched = PumpOutcome.exited r → r.stdinWriterClosed = true) ∧
    (∀ (st : PumpState) (reads : Nat) (sched : List (Bool × InEv)) (i : Nat),
        firstStop sched = some i →
        match inboundLoop st reads sched with
        | PumpOutcome.exited r => r.stdinWriterClosed = true ∧ r.framesRead = reads + i
        | PumpOutcome.running _ _ => False) := by
  constructor
  · intro st reads sched
    induction sched generalizing st reads with
    | nil =>
      intro r h
      exact PumpOutcome.noConfusion h
    | cons p rest ih =>
      obtain ⟨d, e⟩ := p
      intro r h
      by_cases hd : d = true
      · rw [hd] at h
        simp only [inboundLoop, if_true] at h
        injection h with h
        rw [← h]
      · simp only [inboundLoop, if_neg hd] at h
        cases e with
        | readErr =>
          injection h with h
          rw [← h]
        | recv f => exact ih (handleFrame st f) (reads + 1) r h
  · intro st reads sched
    induction sched generalizing st reads with
    | nil =>
      intro i h
      exact Option.noConfusion h
    | cons p rest ih =>
      obtain ⟨d, e⟩ := p
      intro i h
      by_cases hde : (d || e.isErr) = true
      · rw [firstStop, if_pos hde] at h
        injection h with h
        subst h
        by_cases hd : d = true
        · simp [inboundLoop, hd]
        · have he : e.isErr = true := by
            rcases Bool.or_eq_true_iff.mp hde with h1 | h1
            · exact absurd h1 hd
            · exact h1
          cases e with
          | recv f => exact Bool.noConfusion he
          | readErr => simp [inboundLoop, hd]
      · rw [firstStop, if_neg hde] at h
        have hd : d = false := by
          cases d
          · rfl
          · exact absurd (by simp) hde
        have he : e.isErr = false := by
          cases hE : e.isErr
          · rfl
          · exact absurd (by simp [hd, hE]) hde
        cases e with
        | readErr => exact Bool.noConfusion he
        | recv f =>
          obtain ⟨j, hj, hij⟩ := Option.map_eq_some'.mp h
          subst hij
          have := ih (handleFrame st f) (reads + 1) j hj
          rw [hd]
          simp only [inboundLoop, if_neg (by simp : ¬False = true)]
          revert this
          cases hl : inboundLoop (handleFrame st f) (reads + 1) rest with
          | exited r =>
            intro this
            exact ⟨this.1, by rw [this.2]; omega⟩
          | running st2 n =>
            intro this
            exact this

/-- Witness for C7: a two-entry schedule whose first entry is a read of a
malformed frame with the done signal not yet fired and whose second entry
observes the fired done signal; the pump exits there with the stdin writer
closed, having read exactly one frame. -/
theorem c7_witness :
    firstStop [(false, InEv.recv Frame.malformed), (true, InEv.recv Frame.malformed)] =
      some 1 ∧
    (match inboundLoop samplePumpState 0
        [(false, InEv.recv Frame.malformed), (true, InEv.recv Frame.malformed)] with
     | PumpOutcome.exited r => r.stdinWriterClosed = true ∧ r.framesRead = 0 + 1
     | PumpOutcome.running _ _ => False) :=
  ⟨by decide,
    c7_inbound_pump_exit.2 samplePumpState 0
      [(false, InEv.recv Frame.malformed), (true, InEv.recv Frame.malformed)] 1 (by decide)⟩

/-- C8: a frame the pump ignores (a json decode failure, or a Type that is
neither input nor resize) leaves the pump state unchanged — nothing is
written to the remote stdin and the resize slot is untouched — and the pump
continues with the next read rather than exiting. -/
theorem c8_ignored_frame_no_effect (st : PumpState) (f : Frame)
    (h : f.isIgnored = true) :
    handleFrame st f = st ∧
    ∀ (reads : Nat) (rest : List (Bool × InEv)),
      inboundLoop st reads ((false, InEv.recv f) :: rest) =
        inboundLoop st (reads + 1) rest := by
  have hf : handleFrame st f = st := by
    cases f with
    | malformed => rfl
    | msg t data rows cols =>
      simp only [Frame.isIgnored, Bool.and_eq_true, bne_iff_ne, ne_eq] at h
      simp [handleFrame, h.1, h.2]
  refine ⟨hf, fun reads rest => ?_⟩
  simp [inboundLoop, hf]

/-- Witness for C8 at the frame with Type bogus from the spec example. -/
theorem c8_witness :
    handleFrame samplePumpState (Frame.msg "bogus" "" 0 0) = samplePumpState ∧
    inboundLoop samplePumpState 0 [(false, InEv.recv (Frame.msg "bogus" "" 0 0))] =
      inboundLoop samplePumpState (0 + 1) [] :=
  ⟨(c8_ignored_frame_no_effect samplePumpState (Frame.msg "bogus" "" 0 0) (by decide)).1,
    (c8_ignored_frame_no_effect samplePumpState (Frame.msg "bogus" "" 0 0) (by decide)).2 0 []⟩

/-- C10: in every reachable state of the exec bridge (in particular after
the termination sequence, which closes only the done signal and the pipe
ends) the terminal-size channel is never closed, so the closed-channel
branch of terminalSizeQueue.Next returning the nil sentinel is unreachable,
and a Next call when no value is pending blocks. -/
theorem c10_sizechan_never_closed (evs : List BridgeEv) :
    (bridgeRun bridgeInit evs).sizeChan.closed = false ∧
    (bridgeRun bridgeInit evs).sizeChan.next ≠ NextRes.nilSentinel ∧
    ((bridgeRun bridgeInit evs).sizeChan.slot = none →
      (bridgeRun bridgeInit evs).sizeChan.next = NextRes.blocked) := by
  have hc : (bridgeRun bridgeInit evs).sizeChan.closed = false :=
    bridge_sizechan_stays_open evs bridgeInit rfl
  refine ⟨hc, ?_, ?_⟩
  · cases hs : (bridgeRun bridgeInit evs).sizeChan.slot <;>
      simp [SizeChan.next, hs, hc]
  · intro hs
    simp [SizeChan.next, hs, hc]

/-- Witness for C10: after the transport consumed the initial size and the
termination sequence ran, the channel is open and empty, and Next blocks. -/
theorem c10_witness :
    (bridgeRun bridgeInit [BridgeEv.consumeSize, BridgeEv.terminate]).sizeChan.next =
      NextRes.blocked :=
  (c10_sizechan_never_closed [BridgeEv.consumeSize, BridgeEv.terminate]).2.2 rfl

end K8sUI
